import Mathlib

/-!
Shallow embedding of the AI-Co-Scientist backend (src/backend/app.py).

The embedding covers the components the verified claims are about:

* `EnhancedSearchTool` and its `func` method (app.py lines 25-114): the
  session-scoped literature-search tool with caching, rate limiting and a
  query budget.  Outbound calls and clock reads are modelled as an
  explicit environment (`SearchEnv`) supplied to each call, and the
  observable effects of a call (return value, state update, which
  outbound calls were attempted, how long the caller slept) are collected
  in a `SearchEffect` record.
* The module-level session registry (app.py lines 20-23): the three
  process-wide dictionaries `research_processes`, `research_results` and
  `research_logs`, modelled as association lists where assignment
  prepends a binding and lookup returns the most recent one (exactly the
  observable behaviour of a Python dict under these operations).
* `EnhancedAICoScientist.__init__` (lines 116-130), `log_activity`
  (lines 132-146) and `run_research_process` (lines 228-250).  The
  external crewai runtime is modelled by an oracle `CrewOutcome` saying
  whether `crew.kickoff()` returned a result or raised, or whether the
  agent/task/crew construction raised before the Process Started log.
* `research_worker` (lines 252-272), `start_research` (lines 274-308)
  and `research_status` (lines 310-332).

Wall-clock readings (`time.time()`) are supplied by the environment:
integers for the search tool, whose claims only involve differences and
comparisons against the integral threshold of 2 time-units, and
rationals for `start_research`, whose session-id generation truncates a
sub-second reading to whole seconds.  `datetime.now()` timestamp strings
are likewise supplied as parameters.
-/

namespace AICoScientist

/-- A JSON-like value, used to state exactly which dictionary shape a
return value of the search tool has on the wire. -/
inductive JVal where
  | jnull
  | jstr (s : String)
  | jarr (xs : List JVal)
  | jobj (fields : List (String × JVal))

/-- Top-level keys of a JSON object (empty for non-objects); used to
tell two dictionary shapes apart. -/
def JVal.topKeys : JVal → List String
  | .jobj fields => fields.map Prod.fst
  | _ => []

/-- `query.lower()` (app.py line 53), modelled as per-character ASCII
case folding over the string contents. -/
def pyLower (s : String) : String := String.mk (s.data.map Char.toLower)

/-- `query.strip()` (app.py line 53): drop whitespace from both ends. -/
def pyStrip (s : String) : String :=
  String.mk (((s.data.dropWhile Char.isWhitespace).reverse.dropWhile
    Char.isWhitespace).reverse)

/-- The cache key `query.lower().strip()` of app.py line 53. -/
def normKey (q : String) : String := pyStrip (pyLower q)

/-- One arXiv paper record as built by `func` (app.py lines 82-91):
title, author list, summary, pdf url, and a nullable published date. -/
structure PaperRecord where
  title : String
  authors : List String
  summary : String
  pdf_url : String
  published : Option String
deriving DecidableEq, Repr

/-- One SerpAPI organic result (app.py line 106).  The code treats these
as opaque dictionaries; we model them as string-keyed records. -/
structure WebRecord where
  fields : List (String × String)
deriving DecidableEq, Repr

/-- The `results` dictionary built at app.py lines 69-72:
`{"arxiv": [...], "web": [...]}`. -/
structure Bundle where
  arxiv : List PaperRecord
  web : List WebRecord
deriving DecidableEq, Repr

/-- What one call of `EnhancedSearchTool.func` returns: either a results
bundle `{"arxiv": [...], "web": [...]}` (fresh or cached), or the fixed
budget-exceeded literal of app.py line 67,
`{"error": "Query limit reached", "results": {"arxiv": [], "web": []}}`. -/
inductive SearchReturn where
  | results (b : Bundle)
  | limitSentinel
deriving DecidableEq, Repr

/-- JSON encoding of a paper record, following the dict literal at
app.py lines 83-89. -/
def PaperRecord.json (p : PaperRecord) : JVal :=
  .jobj [("title", .jstr p.title),
         ("authors", .jarr (p.authors.map JVal.jstr)),
         ("summary", .jstr p.summary),
         ("pdf_url", .jstr p.pdf_url),
         ("published", match p.published with
                       | some d => .jstr d
                       | none => .jnull)]

/-- JSON encoding of a web record. -/
def WebRecord.json (w : WebRecord) : JVal :=
  .jobj (w.fields.map (fun kv => (kv.1, JVal.jstr kv.2)))

/-- JSON encoding of a bundle: the dict of app.py lines 69-72. -/
def Bundle.json (b : Bundle) : JVal :=
  .jobj [("arxiv", .jarr (b.arxiv.map PaperRecord.json)),
         ("web", .jarr (b.web.map WebRecord.json))]

/-- JSON encoding of a return value of `func`.  The sentinel case is the
literal dict at app.py line 67: the empty lists sit nested under a
`results` key, not at top level. -/
def SearchReturn.json : SearchReturn → JVal
  | .results b => b.json
  | .limitSentinel =>
      .jobj [("error", .jstr "Query limit reached"),
             ("results", .jobj [("arxiv", .jarr []), ("web", .jarr [])])]

/-- The bundle carried by a return value, if it is one. -/
def SearchReturn.resultsOf : SearchReturn → Option Bundle
  | .results b => some b
  | .limitSentinel => none

/-- State of one `EnhancedSearchTool` instance (app.py lines 28-35).
`api_keys` holds the optional `"serpapi"` entry of the `api_keys` dict
(the only key the class ever reads); `session_id` is the attribute set
from outside at app.py line 127 (absent right after `__init__`). -/
structure EnhancedSearchTool where
  api_keys : Option String
  session_id : Option String
  cache : List (String × Bundle)
  last_query_time : ℤ
  query_count : ℕ
  max_queries_per_session : ℕ
deriving DecidableEq, Repr

/-- `EnhancedSearchTool.__init__` (app.py lines 28-35). -/
def EnhancedSearchTool.init (api_keys : Option String) : EnhancedSearchTool :=
  { api_keys := api_keys
    session_id := none
    cache := []
    last_query_time := 0
    query_count := 0
    max_queries_per_session := 20 }

/-- The configured-secondary-key test of app.py line 96:
`"serpapi" in self.api_keys and self.api_keys["serpapi"]` — the key must
be present and truthy (non-empty). -/
def EnhancedSearchTool.serpapiConfigured (t : EnhancedSearchTool) : Bool :=
  match t.api_keys with
  | some k => k != ""
  | none => false

/-- Environment of one `func` call: the two `time.time()` readings
(app.py lines 59 and 112) and the responses of the two outbound
providers.  `Except.error` means the provider raised an exception. -/
structure SearchEnv where
  tEntry : ℤ
  arxivOutcome : Except String (List PaperRecord)
  webOutcome : Except String (List WebRecord)
  tDone : ℤ
deriving Repr

/-- Observable effects of one `func` call: the value returned, the tool
state afterwards, whether each outbound call was attempted, how long the
caller slept in the rate-limit step, at what time the outbound phase ran
(entry time plus sleep; `none` when no outbound call is reached), and
the log append of app.py lines 43-50 (target session and result text;
the wall-clock timestamp string of the entry is elided). -/
structure SearchEffect where
  ret : SearchReturn
  state : EnhancedSearchTool
  arxivCalled : Bool
  webCalled : Bool
  sleptFor : ℤ
  outboundAt : Option ℤ
  logTarget : String
  logQuery : String
deriving Repr

/-- `EnhancedSearchTool.func` (app.py lines 37-114), translated
line by line:

1. append a log entry for the owning session (lines 42-50; recorded in
   `logTarget`/`logQuery`);
2. cache check on the key `query.lower().strip()` (lines 52-56): on a
   hit return the cached bundle at once — no sleep, no budget increment,
   no outbound call, no state change;
3. rate limiting (lines 58-61): if less than 2 time-units passed since
   `last_query_time`, sleep for the difference;
4. budget (lines 63-67): increment `query_count`; when it now exceeds
   `max_queries_per_session`, return the sentinel dict without any
   outbound call and without caching (note: `last_query_time` is not
   updated on this path);
5. arXiv search (lines 74-93): any exception is caught and leaves the
   academic list empty;
6. SerpAPI fallback (lines 95-108): attempted only when fewer than 3
   academic results were obtained and a serpapi key is configured; any
   exception is caught and leaves the web list empty;
7. cache the bundle and set `last_query_time` to the second clock
   reading (lines 110-112). -/
def EnhancedSearchTool.func (t : EnhancedSearchTool) (query : String)
    (env : SearchEnv) : SearchEffect :=
  let logTarget := t.session_id.getD "default"
  let logQuery := "Query: " ++ query
  let cache_key := normKey query
  match t.cache.lookup cache_key with
  | some cached =>
      { ret := .results cached
        state := t
        arxivCalled := false
        webCalled := false
        sleptFor := 0
        outboundAt := none
        logTarget := logTarget
        logQuery := logQuery }
  | none =>
      let sleptFor : ℤ :=
        if env.tEntry - t.last_query_time < 2
        then 2 - (env.tEntry - t.last_query_time) else 0
      let t1 := { t with query_count := t.query_count + 1 }
      if t1.query_count > t1.max_queries_per_session then
        { ret := .limitSentinel
          state := t1
          arxivCalled := false
          webCalled := false
          sleptFor := sleptFor
          outboundAt := none
          logTarget := logTarget
          logQuery := logQuery }
      else
        let arxivList : List PaperRecord :=
          match env.arxivOutcome with
          | .ok papers => papers
          | .error _ => []
        let webAttempted := decide (arxivList.length < 3) && t1.serpapiConfigured
        let webList : List WebRecord :=
          if webAttempted then
            match env.webOutcome with
            | .ok recs => recs
            | .error _ => []
          else []
        let bundle : Bundle := { arxiv := arxivList, web := webList }
        { ret := .results bundle
          state := { t1 with
                     cache := (cache_key, bundle) :: t1.cache
                     last_query_time := env.tDone }
          arxivCalled := true
          webCalled := webAttempted
          sleptFor := sleptFor
          outboundAt := some (env.tEntry + sleptFor)
          logTarget := logTarget
          logQuery := logQuery }

example :
    ((EnhancedSearchTool.init none).func "Hello"
      ⟨100, .ok [], .ok [], 101⟩).ret = .results ⟨[], []⟩ := by decide

example :
    (((EnhancedSearchTool.init none).func "Hello"
      ⟨100, .ok [], .ok [], 101⟩).state.func "  hELLo "
      ⟨300, .error "x", .ok [], 301⟩).ret = .results ⟨[], []⟩ := by decide

/-- `int(time.time())` (app.py line 287) for a nonnegative rational
clock reading: truncation to whole seconds. -/
def pyInt (q : ℚ) : ℤ := q.num / q.den

/-- The session identifier generated at app.py line 287:
`f"research_{int(time.time())}"`. -/
def sessionIdOf (t : ℚ) : String := "research_" ++ toString (pyInt t)

/-- One entry of a per-session activity log (app.py lines 45-50 and
135-140). -/
structure LogEntry where
  timestamp : String
  agent : String
  action : String
  result : String
deriving DecidableEq, Repr

/-- A value stored in the `research_results` dict: either the opaque
result of `crew.kickoff()` (app.py line 265) or the error dict
`{"error": error_msg}` written at line 271. -/
inductive StoredResult where
  | payload (r : String)
  | errObj (error : String)
deriving DecidableEq, Repr

/-- Dict assignment `m[k] = v`: the new binding shadows older ones under
`List.lookup`, which models Python dict read behaviour. -/
def setItem {α : Type} (m : List (String × α)) (k : String) (v : α) :
    List (String × α) := (k, v) :: m

/-- The three module-level dictionaries of app.py lines 20-23. -/
structure ServerState where
  research_processes : List (String × String)
  research_results : List (String × StoredResult)
  research_logs : List (String × List LogEntry)
deriving Repr

/-- The process-wide environment: `os.environ['OPENAI_API_KEY']`,
written at app.py line 120 and read by the crewai runtime when a crew is
kicked off.  It is shared by all sessions of the process. -/
structure GlobalEnv where
  openai_api_key : Option String
deriving DecidableEq, Repr

/-- The key a crew uses for its LLM calls: crewai reads
`OPENAI_API_KEY` from the process environment at kickoff time, so it is
whatever the environment holds at that moment. -/
def crewKickoffKeyUsed (g : GlobalEnv) : Option String := g.openai_api_key

/-- An `EnhancedAICoScientist` instance (app.py lines 116-130). -/
structure EnhancedAICoScientist where
  session_id : String
  search_tool : EnhancedSearchTool
deriving Repr

/-- The values produced by `EnhancedAICoScientist.__init__`: the updated
process environment, the instance, and the updated logs dict. -/
structure InitResult where
  g : GlobalEnv
  scientist : EnhancedAICoScientist
  logs : List (String × List LogEntry)
deriving Repr

/-- `EnhancedAICoScientist.__init__` (app.py lines 117-130): store the
OpenAI key into the process-wide environment (line 120), build the
`api_keys` dict with a `"serpapi"` entry only when a truthy key was
passed (lines 122-124), construct a fresh `EnhancedSearchTool` and bind
it to the session (lines 126-127), and initialize the session log
(line 130). -/
def EnhancedAICoScientist.mkInit (g : GlobalEnv)
    (logs : List (String × List LogEntry)) (session_id : String)
    (openai_api_key : String) (serpapi_key : Option String) : InitResult :=
  let g1 : GlobalEnv := { g with openai_api_key := some openai_api_key }
  let api_keys : Option String :=
    match serpapi_key with
    | some k => if k != "" then some k else none
    | none => none
  let tool := { EnhancedSearchTool.init api_keys with session_id := some session_id }
  { g := g1
    scientist := { session_id := session_id, search_tool := tool }
    logs := setItem logs session_id [] }

/-- `log_activity` (app.py lines 132-146): append an entry to the
session log when the session is registered; `ts` is the
`datetime.now()` reading. -/
def log_activity (logs : List (String × List LogEntry))
    (session_id ts agent_name action result : String) :
    List (String × List LogEntry) :=
  match logs.lookup session_id with
  | some l =>
      setItem logs session_id
        (l ++ [{ timestamp := ts, agent := agent_name, action := action,
                 result := result }])
  | none => logs

/-- Oracle for one run of the external crewai runtime inside
`run_research_process` (app.py lines 228-250): either the agent, task
or crew construction raised before the Process Started log (lines
230-239), or `crew.kickoff()` (line 244) returned a result, or it
raised with message `msg`. -/
inductive CrewOutcome where
  | setupRaised (msg : String)
  | ok (result : String)
  | raised (msg : String)
deriving DecidableEq, Repr

/-- `run_research_process` (app.py lines 228-250): log Process Started,
delegate to the crew, log Process Completed and return the result, or
catch the kickoff exception, log Process Error and re-raise the
consolidated message `"Error in research process: " + str(e)`
(lines 247-250).  A setup exception propagates as-is, before any log
entry is written. -/
def run_research_process (session_id ts research_goal : String)
    (logs : List (String × List LogEntry)) (co : CrewOutcome) :
    Except String String × List (String × List LogEntry) :=
  match co with
  | .setupRaised m => (.error m, logs)
  | .ok r =>
      let logs1 := log_activity logs session_id ts "Supervisor"
        "Process Started" ("Goal: " ++ research_goal)
      let logs2 := log_activity logs1 session_id ts "Supervisor"
        "Process Completed" "Research results generated"
      (.ok r, logs2)
  | .raised m =>
      let logs1 := log_activity logs session_id ts "Supervisor"
        "Process Started" ("Goal: " ++ research_goal)
      let error_msg := "Error in research process: " ++ m
      let logs2 := log_activity logs1 session_id ts "Supervisor"
        "Process Error" error_msg
      (.error error_msg, logs2)

/-- Result of one `research_worker` run: the server state and process
environment afterwards, and the successive values this worker assigned
to `research_processes[session_id]`, in order. -/
structure WorkerRun where
  st : ServerState
  g : GlobalEnv
  writes : List String
deriving Repr

/-- `research_worker` (app.py lines 252-272): mark the session running
(line 256), construct a fresh `EnhancedAICoScientist` (line 259; a plain
sequence of assignments, it cannot raise), run the research process
(line 262), and write exactly one terminal outcome: on success store the
result and mark completed (lines 265-266); on any exception store
`{"error": "Error in research process: " + str(e)}` and mark error
(lines 268-272). -/
def research_worker (st : ServerState) (g : GlobalEnv)
    (session_id research_goal openai_api_key : String)
    (serpapi_key : Option String) (ts : String) (co : CrewOutcome) :
    WorkerRun :=
  let st1 := { st with
    research_processes := setItem st.research_processes session_id "running" }
  let ini := EnhancedAICoScientist.mkInit g st1.research_logs session_id
    openai_api_key serpapi_key
  let st2 := { st1 with research_logs := ini.logs }
  match run_research_process session_id ts research_goal st2.research_logs co with
  | (.ok result, logs2) =>
      { st := { st2 with
          research_logs := logs2
          research_results := setItem st2.research_results session_id (.payload result)
          research_processes := setItem st2.research_processes session_id "completed" }
        g := ini.g
        writes := ["running", "completed"] }
  | (.error em, logs2) =>
      let error_msg := "Error in research process: " ++ em
      { st := { st2 with
          research_logs := logs2
          research_results := setItem st2.research_results session_id (.errObj error_msg)
          research_processes := setItem st2.research_processes session_id "error" }
        g := ini.g
        writes := ["running", "error"] }

/-- The JSON body of a `POST /api/start_research` request; `none`
models an absent field (`data.get` returning `None`). -/
structure StartBody where
  research_goal : Option String
  openai_api_key : Option String
  serpapi_key : Option String
deriving DecidableEq, Repr

/-- Python truthiness of `data.get(field)`: present and non-empty. -/
def truthyStr : Option String → Bool
  | some s => s != ""
  | none => false

/-- Response of the start endpoint: either a `400` with a message or a
`200` success carrying the fresh session id. -/
inductive StartResponse where
  | badRequest (message : String)
  | okStarted (session_id : String)
deriving DecidableEq, Repr

/-- The arguments handed to the worker thread spawned at app.py
lines 293-302. -/
structure WorkerSpawn where
  session_id : String
  research_goal : String
  openai_api_key : String
  serpapi_key : Option String
deriving DecidableEq, Repr

/-- `start_research` (app.py lines 274-308): validate the two required
fields (lines 280-284), generate the session id from the current time
(line 287), initialize the session log (line 290) and spawn the worker
thread (lines 293-302).  Note that `research_processes` is not touched
here: the first status write is the worker setting "running". -/
def start_research (st : ServerState) (body : StartBody) (t : ℚ) :
    ServerState × StartResponse × Option WorkerSpawn :=
  if !truthyStr body.research_goal then
    (st, .badRequest "Research goal is required", none)
  else if !truthyStr body.openai_api_key then
    (st, .badRequest "OpenAI API key is required", none)
  else
    let session_id := sessionIdOf t
    let st1 := { st with research_logs := setItem st.research_logs session_id [] }
    (st1, .okStarted session_id,
     some { session_id := session_id
            research_goal := body.research_goal.getD ""
            openai_api_key := body.openai_api_key.getD ""
            serpapi_key := body.serpapi_key })

/-- Response of the status endpoint: a `404` for an unknown session, or
a `200` carrying the process status, the session log, and the result
payload (attached only for completed sessions). -/
inductive StatusResponse where
  | notFound
  | ok (process_status : String) (logs : List LogEntry)
       (result : Option StoredResult)
deriving DecidableEq, Repr

/-- The `process_status` field of a status response, when present. -/
def StatusResponse.processStatusOf : StatusResponse → Option String
  | .notFound => none
  | .ok p _ _ => some p

/-- The `result` field of a status response (`none` both for a missing
session and for a null result). -/
def StatusResponse.resultOf : StatusResponse → Option StoredResult
  | .notFound => none
  | .ok _ _ r => r

/-- `research_status` (app.py lines 310-332): `404` when the session id
is not in `research_processes`; otherwise return the status, the log
(`research_logs.get(session_id, [])`), and — only when the status is
`"completed"` — the stored result; for every other status the `result`
field is `None`. -/
def research_status (st : ServerState) (session_id : String) :
    StatusResponse :=
  match st.research_processes.lookup session_id with
  | none => .notFound
  | some _ =>
      let logs := (st.research_logs.lookup session_id).getD []
      let process_status := (st.research_processes.lookup session_id).getD "unknown"
      let result :=
        if process_status == "completed"
        then st.research_results.lookup session_id else none
      .ok process_status logs result

/-! ### Path lemmas for `EnhancedSearchTool.func` -/

/-- Cache-hit path (app.py lines 52-56): the cached bundle is returned
with no state change, no sleep and no outbound call. -/
theorem func_hit {t : EnhancedSearchTool} {q : String} {env : SearchEnv}
    {c : Bundle} (h : t.cache.lookup (normKey q) = some c) :
    t.func q env =
      { ret := .results c
        state := t
        arxivCalled := false
        webCalled := false
        sleptFor := 0
        outboundAt := none
        logTarget := t.session_id.getD "default"
        logQuery := "Query: " ++ q } := by
  simp only [EnhancedSearchTool.func, h]

/-- Budget-exceeded path (app.py lines 63-67): on a cache miss with the
budget already used up, the counter is still incremented, the sentinel
is returned, and neither the cache nor `last_query_time` is touched. -/
theorem func_miss_over {t : EnhancedSearchTool} {q : String}
    {env : SearchEnv} (h : t.cache.lookup (normKey q) = none)
    (hb : t.max_queries_per_session < t.query_count + 1) :
    t.func q env =
      { ret := .limitSentinel
        state := { t with query_count := t.query_count + 1 }
        arxivCalled := false
        webCalled := false
        sleptFor := if env.tEntry - t.last_query_time < 2
                    then 2 - (env.tEntry - t.last_query_time) else 0
        outboundAt := none
        logTarget := t.session_id.getD "default"
        logQuery := "Query: " ++ q } := by
  simp only [EnhancedSearchTool.func, h]
  simp [hb]

/-- The academic result list obtained from the arXiv call outcome
(app.py lines 74-93): the provider response, or empty when the call
raised. -/
def arxivListOf (env : SearchEnv) : List PaperRecord :=
  match env.arxivOutcome with
  | .ok papers => papers
  | .error _ => []

/-- Whether the SerpAPI fallback is attempted (app.py line 96): fewer
than 3 academic results and a configured serpapi key. -/
def webAttemptedOf (t : EnhancedSearchTool) (env : SearchEnv) : Bool :=
  decide ((arxivListOf env).length < 3) && t.serpapiConfigured

/-- The web result list (app.py lines 95-108): the provider response
when the fallback is attempted (empty when it raised), empty
otherwise. -/
def webListOf (t : EnhancedSearchTool) (env : SearchEnv) : List WebRecord :=
  if webAttemptedOf t env then
    match env.webOutcome with
    | .ok recs => recs
    | .error _ => []
  else []

/-- The sleep performed by the rate-limit step (app.py lines 58-61). -/
def sleptForOf (t : EnhancedSearchTool) (env : SearchEnv) : ℤ :=
  if env.tEntry - t.last_query_time < 2
  then 2 - (env.tEntry - t.last_query_time) else 0

/-- The bundle built by a fresh search. -/
def freshBundleOf (t : EnhancedSearchTool) (env : SearchEnv) : Bundle :=
  { arxiv := arxivListOf env, web := webListOf t env }

/-- Fresh-search path (app.py lines 69-114): on a cache miss within
budget, the counter is incremented, the arXiv call is attempted, the
web fallback is attempted exactly when fewer than 3 academic results
were obtained and a serpapi key is configured, the resulting bundle is
cached, and `last_query_time` is advanced to the second clock
reading. -/
theorem func_miss_fresh {t : EnhancedSearchTool} {q : String}
    {env : SearchEnv} (h : t.cache.lookup (normKey q) = none)
    (hb : t.query_count + 1 ≤ t.max_queries_per_session) :
    t.func q env =
      { ret := .results (freshBundleOf t env)
        state := { t with
                   query_count := t.query_count + 1
                   cache := (normKey q, freshBundleOf t env) :: t.cache
                   last_query_time := env.tDone }
        arxivCalled := true
        webCalled := webAttemptedOf t env
        sleptFor := sleptForOf t env
        outboundAt := some (env.tEntry + sleptForOf t env)
        logTarget := t.session_id.getD "default"
        logQuery := "Query: " ++ q } := by
  simp only [EnhancedSearchTool.func, h]
  have hb2 : ¬ (t.query_count + 1 > t.max_queries_per_session) := by omega
  simp only [hb2, if_false]
  rfl

/-! ### Concrete states and environments used by witnesses and
counterexamples -/

/-- A tool state reached after 20 non-cached queries whose cache entries
were evicted into nothing relevant here: the budget is fully used
(`query_count = 20 = max_queries_per_session`) and the next distinct
query is the 21st. -/
def s20 : EnhancedSearchTool :=
  { api_keys := none
    session_id := none
    cache := []
    last_query_time := 0
    query_count := 20
    max_queries_per_session := 20 }

/-- An environment whose providers both answer with empty result lists. -/
def envOkEmpty : SearchEnv := ⟨100, .ok [], .ok [], 101⟩

/-- The budget-exceeded sentinel as the specification document words it:
`{error: "Query limit reached", academic: [], web: []}` with the two
empty lists at top level.  This definition follows the words of the
spec and is compared against the dict the code actually builds. -/
def specClaimedSentinelJson : JVal :=
  .jobj [("error", .jstr "Query limit reached"),
         ("academic", .jarr []), ("web", .jarr [])]

/-! ### C3: query budget -/

/-- C3 (amended): once the budget is used up, every further non-cached
query increments the counter, performs no outbound call, writes nothing
to the cache (and leaves the rate-limit timestamp alone), and returns
the budget-exceeded sentinel — whose wire shape is
`{"error": "Query limit reached", "results": {"arxiv": [], "web": []}}`,
the empty lists nested under a `results` key. -/
theorem budget_exhausted_short_circuit {t : EnhancedSearchTool}
    {q : String} {env : SearchEnv}
    (hmiss : t.cache.lookup (normKey q) = none)
    (hover : t.max_queries_per_session ≤ t.query_count) :
    (t.func q env).ret = .limitSentinel ∧
    (t.func q env).ret.json =
      .jobj [("error", .jstr "Query limit reached"),
             ("results", .jobj [("arxiv", .jarr []), ("web", .jarr [])])] ∧
    (t.func q env).state.query_count = t.query_count + 1 ∧
    (t.func q env).state.cache = t.cache ∧
    (t.func q env).state.last_query_time = t.last_query_time ∧
    (t.func q env).arxivCalled = false ∧
    (t.func q env).webCalled = false ∧
    (t.func q env).outboundAt = none := by
  have hb : t.max_queries_per_session < t.query_count + 1 := by omega
  rw [func_miss_over hmiss hb]
  exact ⟨rfl, rfl, rfl, rfl, rfl, rfl, rfl, rfl⟩

/-- Witness for `budget_exhausted_short_circuit`: the 21st distinct
query on a tool whose budget of 20 is used up. -/
theorem budget_exhausted_short_circuit_w :
    (s20.func "query 21" envOkEmpty).ret = .limitSentinel ∧
    (s20.func "query 21" envOkEmpty).ret.json =
      .jobj [("error", .jstr "Query limit reached"),
             ("results", .jobj [("arxiv", .jarr []), ("web", .jarr [])])] ∧
    (s20.func "query 21" envOkEmpty).state.query_count = s20.query_count + 1 ∧
    (s20.func "query 21" envOkEmpty).state.cache = s20.cache ∧
    (s20.func "query 21" envOkEmpty).state.last_query_time = s20.last_query_time ∧
    (s20.func "query 21" envOkEmpty).arxivCalled = false ∧
    (s20.func "query 21" envOkEmpty).webCalled = false ∧
    (s20.func "query 21" envOkEmpty).outboundAt = none :=
  budget_exhausted_short_circuit (by decide) (by decide)

/-- C3 counterexample: the sentinel the 21st query returns does not
have the claimed top-level form `{error, academic: [], web: []}` — its
empty lists are nested under a `results` key (app.py line 67), under
both the spec field naming (`academic`) and the code field naming
(`arxiv`). -/
theorem claim3_sentinel_shape_cex :
    (s20.func "query 21" envOkEmpty).ret = .limitSentinel ∧
    (s20.func "query 21" envOkEmpty).ret.json.topKeys = ["error", "results"] ∧
    specClaimedSentinelJson.topKeys = ["error", "academic", "web"] ∧
    (s20.func "query 21" envOkEmpty).ret.json ≠ specClaimedSentinelJson ∧
    (s20.func "query 21" envOkEmpty).ret.json ≠
      JVal.jobj [("error", .jstr "Query limit reached"),
                 ("arxiv", .jarr []), ("web", .jarr [])] := by
  have hret : (s20.func "query 21" envOkEmpty).ret = .limitSentinel := by decide
  refine ⟨hret, by decide, rfl, ?_, ?_⟩
  · intro heq
    have hk := congrArg JVal.topKeys heq
    rw [hret] at hk
    exact absurd hk (by decide)
  · intro heq
    have hk := congrArg JVal.topKeys heq
    rw [hret] at hk
    exact absurd hk (by decide)

/-! ### C4: cache replay -/

/-- After a call that returned a results bundle, that bundle sits in
the cache under the normalized key of the query (either it was already
there, or the fresh-search path just wrote it; app.py lines 52-56 and
110-111). -/
theorem cache_contains_after_results {t : EnhancedSearchTool}
    {q : String} {env : SearchEnv} {b : Bundle}
    (h : (t.func q env).ret = .results b) :
    (t.func q env).state.cache.lookup (normKey q) = some b := by
  cases hc : t.cache.lookup (normKey q) with
  | some c =>
      rw [func_hit hc] at h ⊢
      have h2 : SearchReturn.results c = SearchReturn.results b := h
      cases h2
      exact hc
  | none =>
      by_cases hb : t.query_count + 1 ≤ t.max_queries_per_session
      · rw [func_miss_fresh hc hb] at h ⊢
        simp only [SearchReturn.results.injEq] at h
        simp only [List.lookup, beq_self_eq_true]
        rw [h]
      · have hb2 : t.max_queries_per_session < t.query_count + 1 := by omega
        rw [func_miss_over hc hb2] at h
        exact absurd h (by simp)

/-- C4: once a first call has returned (and thus cached) a results
bundle, a second call with the same normalized query text returns
exactly that bundle, with no state change (in particular no budget
increment and no cache write), no outbound call, and no rate-limit
sleep (app.py lines 52-56). -/
theorem cached_query_replay {t : EnhancedSearchTool} {q1 q2 : String}
    {env1 env2 : SearchEnv} {b : Bundle}
    (hq : normKey q2 = normKey q1)
    (h : (t.func q1 env1).ret = .results b) :
    ((t.func q1 env1).state.func q2 env2).ret = .results b ∧
    ((t.func q1 env1).state.func q2 env2).state = (t.func q1 env1).state ∧
    ((t.func q1 env1).state.func q2 env2).arxivCalled = false ∧
    ((t.func q1 env1).state.func q2 env2).webCalled = false ∧
    ((t.func q1 env1).state.func q2 env2).sleptFor = 0 ∧
    ((t.func q1 env1).state.func q2 env2).outboundAt = none := by
  have hcached : (t.func q1 env1).state.cache.lookup (normKey q2) = some b := by
    rw [hq]
    exact cache_contains_after_results h
  rw [func_hit hcached]
  exact ⟨rfl, rfl, rfl, rfl, rfl, rfl⟩

/-- Witness for `cached_query_replay`: the query `"Hello"` followed by
`"  hELLo "`, which normalizes to the same key; the second call replays
the cached bundle untouched. -/
theorem cached_query_replay_w :
    ((((EnhancedSearchTool.init none).func "Hello" envOkEmpty).state.func
        "  hELLo " envOkEmpty).ret = .results ⟨[], []⟩) ∧
    ((((EnhancedSearchTool.init none).func "Hello" envOkEmpty).state.func
        "  hELLo " envOkEmpty).state =
      ((EnhancedSearchTool.init none).func "Hello" envOkEmpty).state) ∧
    ((((EnhancedSearchTool.init none).func "Hello" envOkEmpty).state.func
        "  hELLo " envOkEmpty).arxivCalled = false) ∧
    ((((EnhancedSearchTool.init none).func "Hello" envOkEmpty).state.func
        "  hELLo " envOkEmpty).webCalled = false) ∧
    ((((EnhancedSearchTool.init none).func "Hello" envOkEmpty).state.func
        "  hELLo " envOkEmpty).sleptFor = 0) ∧
    ((((EnhancedSearchTool.init none).func "Hello" envOkEmpty).state.func
        "  hELLo " envOkEmpty).outboundAt = none) :=
  cached_query_replay (by decide) (by decide)

/-! ### C7: arXiv failure degrades, web fallback still attempted -/

/-- C7: when the arXiv call raises, the exception is caught inside
`func` (app.py lines 92-93): the call still returns a results bundle
(it never propagates an exception), the academic list is empty, and the
web fallback is attempted exactly when a serpapi key is configured
(0 academic results is below the minimum of 3, so the academic failure
never suppresses the fallback). -/
theorem arxiv_failure_degrades {t : EnhancedSearchTool} {q : String}
    {env : SearchEnv} {emsg : String}
    (hmiss : t.cache.lookup (normKey q) = none)
    (hb : t.query_count + 1 ≤ t.max_queries_per_session)
    (ha : env.arxivOutcome = .error emsg) :
    (∃ w, (t.func q env).ret = .results { arxiv := [], web := w }) ∧
    (t.func q env).arxivCalled = true ∧
    (t.func q env).webCalled = t.serpapiConfigured := by
  have hax : arxivListOf env = [] := by simp [arxivListOf, ha]
  rw [func_miss_fresh hmiss hb]
  refine ⟨⟨webListOf t env, ?_⟩, rfl, ?_⟩
  · show SearchReturn.results (freshBundleOf t env) = _
    rw [freshBundleOf, hax]
  · show webAttemptedOf t env = t.serpapiConfigured
    rw [webAttemptedOf, hax]
    simp

/-- Witness for `arxiv_failure_degrades`: the scenario of the spec, a
provider exception for the query `"quantum foo"` with a serpapi key
configured; the web fallback is still attempted. -/
theorem arxiv_failure_degrades_w :
    (∃ w, ((EnhancedSearchTool.init (some "serp-key")).func "quantum foo"
        ⟨100, .error "connection reset", .ok [], 101⟩).ret =
        .results { arxiv := [], web := w }) ∧
    ((EnhancedSearchTool.init (some "serp-key")).func "quantum foo"
        ⟨100, .error "connection reset", .ok [], 101⟩).arxivCalled = true ∧
    ((EnhancedSearchTool.init (some "serp-key")).func "quantum foo"
        ⟨100, .error "connection reset", .ok [], 101⟩).webCalled =
      (EnhancedSearchTool.init (some "serp-key")).serpapiConfigured :=
  arxiv_failure_degrades (by decide) (by decide) rfl

/-! ### C8: web fallback gating -/

/-- C8: on a non-cached call within budget, the returned bundle always
exists, the secondary web search is attempted if and only if the
academic result count is below 3 and a serpapi key is configured
(app.py line 96), and whenever it is not attempted the web list stays
empty. -/
theorem web_fallback_gating {t : EnhancedSearchTool} {q : String}
    {env : SearchEnv}
    (hmiss : t.cache.lookup (normKey q) = none)
    (hb : t.query_count + 1 ≤ t.max_queries_per_session) :
    ∃ a w, (t.func q env).ret = .results { arxiv := a, web := w } ∧
      ((t.func q env).webCalled =
        (decide (a.length < 3) && t.serpapiConfigured)) ∧
      ((t.func q env).webCalled = false → w = []) := by
  rw [func_miss_fresh hmiss hb]
  refine ⟨arxivListOf env, webListOf t env, rfl, rfl, ?_⟩
  intro hfalse
  have hfalse2 : webAttemptedOf t env = false := hfalse
  simp [webListOf, hfalse2]

/-- Witness for `web_fallback_gating`: the scenario of the spec — no
serpapi key and a single academic result (1 < 3): the fallback is not
attempted and the web list stays empty. -/
theorem web_fallback_gating_w :
    ∃ a w, ((EnhancedSearchTool.init none).func "graphene"
        ⟨100, .ok [{ title := "A graphene result", authors := ["Doe"],
                     summary := "s", pdf_url := "u",
                     published := some "2024-01-01" }], .ok [], 101⟩).ret =
        .results { arxiv := a, web := w } ∧
      (((EnhancedSearchTool.init none).func "graphene"
        ⟨100, .ok [{ title := "A graphene result", authors := ["Doe"],
                     summary := "s", pdf_url := "u",
                     published := some "2024-01-01" }], .ok [], 101⟩).webCalled =
        (decide (a.length < 3) && (EnhancedSearchTool.init none).serpapiConfigured)) ∧
      (((EnhancedSearchTool.init none).func "graphene"
        ⟨100, .ok [{ title := "A graphene result", authors := ["Doe"],
                     summary := "s", pdf_url := "u",
                     published := some "2024-01-01" }], .ok [], 101⟩).webCalled = false →
        w = []) :=
  web_fallback_gating (by decide) (by decide)

/-! ### C9: rate limiting -/

/-- The rate-limit step never lets an outbound call run earlier than 2
time-units after the recorded `last_query_time` (app.py lines 58-61):
either no sleep was needed because at least 2 units already passed, or
the sleep ends exactly at `last_query_time + 2`. -/
theorem spacing_lower_bound (t : EnhancedSearchTool) (env : SearchEnv) :
    t.last_query_time + 2 ≤ env.tEntry + sleptForOf t env := by
  rw [sleptForOf]
  split_ifs with h
  · linarith
  · linarith

/-- C9 (amended): two consecutive non-cached queries that reach the
outbound phase (budget not exceeded) are separated by at least 2
time-units: each outbound call runs no earlier than 2 units after the
recorded `last_query_time`, and since the first call records its
completion time, the second outbound call runs at least 2 units after
the first.  (`hclock` says the completion clock reading of the first
call is not earlier than its outbound start.)  Budget-exceeded queries
do not record a timestamp and are not covered — see the
counterexample. -/
theorem rate_limit_spacing {t1 t2 : EnhancedSearchTool} {q1 q2 : String}
    {env1 env2 : SearchEnv}
    (h1 : t1.cache.lookup (normKey q1) = none)
    (hb1 : t1.query_count + 1 ≤ t1.max_queries_per_session)
    (hs : (t1.func q1 env1).state = t2)
    (h2 : t2.cache.lookup (normKey q2) = none)
    (hb2 : t2.query_count + 1 ≤ t2.max_queries_per_session)
    (hclock : env1.tEntry + sleptForOf t1 env1 ≤ env1.tDone) :
    ∃ o1 o2,
      (t1.func q1 env1).outboundAt = some o1 ∧
      (t2.func q2 env2).outboundAt = some o2 ∧
      t1.last_query_time + 2 ≤ o1 ∧
      t2.last_query_time + 2 ≤ o2 ∧
      o1 + 2 ≤ o2 := by
  rw [func_miss_fresh h1 hb1] at hs
  rw [func_miss_fresh h1 hb1, func_miss_fresh h2 hb2]
  refine ⟨env1.tEntry + sleptForOf t1 env1,
          env2.tEntry + sleptForOf t2 env2, rfl, rfl,
          spacing_lower_bound t1 env1, spacing_lower_bound t2 env2, ?_⟩
  have hlast : t2.last_query_time = env1.tDone := by
    rw [← hs]
  have h2s := spacing_lower_bound t2 env2
  rw [hlast] at h2s
  linarith

/-- Witness for `rate_limit_spacing`: a first fresh query at time 10,
a second distinct query entering at time 11 — it is made to sleep and
its outbound call runs at time 12, two units after the first. -/
theorem rate_limit_spacing_w :
    ∃ o1 o2,
      ((EnhancedSearchTool.init none).func "alpha"
        ⟨10, .ok [], .ok [], 10⟩).outboundAt = some o1 ∧
      (((EnhancedSearchTool.init none).func "alpha"
        ⟨10, .ok [], .ok [], 10⟩).state.func "beta"
        ⟨11, .ok [], .ok [], 13⟩).outboundAt = some o2 ∧
      (EnhancedSearchTool.init none).last_query_time + 2 ≤ o1 ∧
      ((EnhancedSearchTool.init none).func "alpha"
        ⟨10, .ok [], .ok [], 10⟩).state.last_query_time + 2 ≤ o2 ∧
      o1 + 2 ≤ o2 :=
  rate_limit_spacing (by decide) (by decide) rfl (by decide) (by decide)
    (by decide)

/-- C9 counterexample: with the budget exhausted, two consecutive
non-cached queries entering at times 100 and 101 both return without
any blocking (`sleptFor = 0` for the second as well), although they are
only 1 < 2 time-units apart — the budget-exceeded path neither spaces
calls nor records a timestamp. -/
theorem claim9_spacing_cex :
    s20.cache.lookup (normKey "query a") = none ∧
    (s20.func "query a" ⟨100, .ok [], .ok [], 100⟩).state.cache.lookup
      (normKey "query b") = none ∧
    (s20.func "query a" ⟨100, .ok [], .ok [], 100⟩).ret = .limitSentinel ∧
    ((s20.func "query a" ⟨100, .ok [], .ok [], 100⟩).state.func "query b"
      ⟨101, .ok [], .ok [], 101⟩).ret = .limitSentinel ∧
    (s20.func "query a" ⟨100, .ok [], .ok [], 100⟩).sleptFor = 0 ∧
    ((s20.func "query a" ⟨100, .ok [], .ok [], 100⟩).state.func "query b"
      ⟨101, .ok [], .ok [], 101⟩).sleptFor = 0 ∧
    (101 : ℤ) - 100 < 2 := by decide

/-! ### C5: session status lifecycle -/

/-- Whether a status string is terminal. -/
def isTerminalStatus (s : String) : Bool := s == "completed" || s == "error"

/-- The edges of the claimed status state machine
`pending → running → (completed or error)`. -/
def allowedStatusEdge (a b : String) : Bool :=
  (a == "pending" && b == "running") ||
  (a == "running" && (b == "completed" || b == "error"))

/-- C5: whatever the orchestrator does — return, raise during setup, or
raise from `crew.kickoff()` — the sequence of status values a worker
writes for its session steps only along the claimed chain, contains
exactly one terminal write, and never writes again after the terminal
one (app.py lines 252-272: the single `except` clause around the whole
body guarantees exactly one of the two terminal writes happens). -/
theorem worker_status_lifecycle (st : ServerState) (g : GlobalEnv)
    (sid goal okey ts : String) (skey : Option String) (co : CrewOutcome) :
    List.Chain' (fun a b => allowedStatusEdge a b = true)
      (research_worker st g sid goal okey skey ts co).writes ∧
    (research_worker st g sid goal okey skey ts co).writes.countP
      (fun s => isTerminalStatus s) = 1 ∧
    ((research_worker st g sid goal okey skey ts co).writes.dropWhile
      (fun s => !isTerminalStatus s)).length ≤ 1 := by
  cases co <;>
    (simp only [research_worker, run_research_process]
     exact ⟨by simp [List.chain'_cons, allowedStatusEdge], by decide,
            by decide⟩)

/-! ### C1: error state is only partly observable -/

/-- C1 (code bug demonstration): a worker whose kickoff raised `"boom"`
records the human-readable message in `research_results`, and a status
poll then reports `process_status = "error"` — but with `result = None`:
`research_status` attaches the stored result only when the status is
`"completed"` (app.py lines 323-325), so the recorded message never
reaches the poller. -/
theorem error_status_poll_hides_message :
    StatusResponse.processStatusOf
      (research_status (research_worker ⟨[], [], []⟩ ⟨none⟩ "research_100"
        "goal" "sk-test" none "ts" (.raised "boom")).st "research_100") =
      some "error" ∧
    StatusResponse.resultOf
      (research_status (research_worker ⟨[], [], []⟩ ⟨none⟩ "research_100"
        "goal" "sk-test" none "ts" (.raised "boom")).st "research_100") =
      none ∧
    (research_worker ⟨[], [], []⟩ ⟨none⟩ "research_100" "goal" "sk-test"
      none "ts" (.raised "boom")).st.research_results.lookup "research_100" =
      some (.errObj
        "Error in research process: Error in research process: boom") := by
  decide

/-! ### C2: no pending status, polls race the worker -/

/-- C2 counterexample: a valid start request at time 100 returns the
fresh session id, but a status poll issued before the worker thread has
run returns NotFound — `start_research` never initializes
`research_processes` (app.py lines 286-302), and no "pending" status
exists anywhere in the code. -/
theorem claim2_pending_poll_cex :
    (start_research ⟨[], [], []⟩ ⟨some "goal", some "sk-key", none⟩
      100).2.1 = .okStarted "research_100" ∧
    research_status
      (start_research ⟨[], [], []⟩ ⟨some "goal", some "sk-key", none⟩
        100).1 "research_100" = .notFound := by
  decide

/-- C2 (amended): an accepted start request initializes only the
session log, not its status, so a poll issued after the start response
but before the worker performs its first write returns NotFound; once
the worker has marked the session running (and until its terminal
write), polls succeed and report `process_status = "running"` with
`result = None`. -/
theorem start_no_status_then_running_poll
    (st stR : ServerState) (body : StartBody) (t : ℚ) (sid : String)
    (hg : truthyStr body.research_goal = true)
    (hk : truthyStr body.openai_api_key = true)
    (hfresh : st.research_processes.lookup (sessionIdOf t) = none)
    (hrun : stR.research_processes.lookup sid = some "running") :
    research_status (start_research st body t).1 (sessionIdOf t) =
      .notFound ∧
    research_status stR sid =
      .ok "running" ((stR.research_logs.lookup sid).getD []) none := by
  constructor
  · have hp : (start_research st body t).1.research_processes =
        st.research_processes := by
      simp [start_research, hg, hk]
    simp [research_status, hp, hfresh]
  · simp [research_status, hrun]

/-- Witness for `start_no_status_then_running_poll`: a concrete start
on an empty registry followed by a poll, and a poll of a concrete
running session. -/
theorem start_no_status_then_running_poll_w :
    research_status
      (start_research ⟨[], [], []⟩ ⟨some "goal", some "sk-key", none⟩
        100).1 (sessionIdOf 100) = .notFound ∧
    research_status ⟨[("s1", "running")], [], []⟩ "s1" =
      .ok "running"
        (((⟨[("s1", "running")], [], []⟩ : ServerState).research_logs.lookup
          "s1").getD []) none :=
  start_no_status_then_running_poll _ _ _ _ _ (by decide) (by decide)
    (by decide) (by decide)

/-! ### C6: credential isolation across sessions -/

/-- C6 counterexample: session A is constructed with `"keyA"`, then
session B with `"keyB"`.  Because `__init__` writes the OpenAI key into
the process-global environment (app.py line 120), the key visible at
any subsequent `crew.kickoff()` — including the one of session A's
still-running job — is `"keyB"`: the credential supplied to session B
is used by session A's job. -/
theorem claim6_env_key_leak_cex :
    crewKickoffKeyUsed
      (EnhancedAICoScientist.mkInit
        (EnhancedAICoScientist.mkInit ⟨none⟩ [] "research_A" "keyA" none).g
        (EnhancedAICoScientist.mkInit ⟨none⟩ [] "research_A" "keyA" none).logs
        "research_B" "keyB" none).g = some "keyB" ∧
    crewKickoffKeyUsed
      (EnhancedAICoScientist.mkInit
        (EnhancedAICoScientist.mkInit ⟨none⟩ [] "research_A" "keyA" none).g
        (EnhancedAICoScientist.mkInit ⟨none⟩ [] "research_A" "keyA" none).logs
        "research_B" "keyB" none).g ≠ some "keyA" := by
  decide

/-- A process with two live sessions: each holds its own
`EnhancedSearchTool`, while the environment is shared. -/
structure TwoSessionWorld where
  toolA : EnhancedSearchTool
  toolB : EnhancedSearchTool
  g : GlobalEnv

/-- Session A performs one search. -/
def searchStepA (w : TwoSessionWorld) (q : String) (env : SearchEnv) :
    TwoSessionWorld := { w with toolA := (w.toolA.func q env).state }

/-- Session B performs one search. -/
def searchStepB (w : TwoSessionWorld) (q : String) (env : SearchEnv) :
    TwoSessionWorld := { w with toolB := (w.toolB.func q env).state }

/-- C6 (amended): each session's `EnhancedSearchTool` is constructed
fresh (zero budget, empty cache, zero rate-limit timestamp; app.py
lines 126-127 and 28-35), and one session's searches never change the
other session's tool state — budget, rate-limit state and cache are
per-instance.  The OpenAI key, however, is written to the shared
process environment, so the most recently constructed session
determines the key any kickoff uses. -/
theorem session_tool_isolation (w : TwoSessionWorld) (q : String)
    (env : SearchEnv) (g : GlobalEnv)
    (logs : List (String × List LogEntry)) (sid okey : String)
    (skey : Option String) :
    (searchStepA w q env).toolB = w.toolB ∧
    (searchStepA w q env).g = w.g ∧
    (searchStepB w q env).toolA = w.toolA ∧
    (searchStepB w q env).g = w.g ∧
    (EnhancedAICoScientist.mkInit g logs sid okey
      skey).scientist.search_tool.query_count = 0 ∧
    (EnhancedAICoScientist.mkInit g logs sid okey
      skey).scientist.search_tool.cache = [] ∧
    (EnhancedAICoScientist.mkInit g logs sid okey
      skey).scientist.search_tool.last_query_time = 0 ∧
    (EnhancedAICoScientist.mkInit g logs sid okey skey).g.openai_api_key =
      some okey :=
  ⟨rfl, rfl, rfl, rfl, rfl, rfl, rfl, rfl⟩

/-! ### C10: session ids collide at second granularity -/

/-- C10: the session id is the creation time truncated to whole seconds
prefixed with `research_` (app.py line 287), so two accepted start
requests within the same wall-clock second generate equal ids; the
second request re-initializes the shared session log to `[]` (line 290,
wiping whatever the first worker logged) and spawns a second worker
carrying the same session id, hence writing to the same registry
entry. -/
theorem duplicate_session_id_collision (t1 t2 : ℚ) (stA stB : ServerState)
    (body : StartBody)
    (hg : truthyStr body.research_goal = true)
    (hk : truthyStr body.openai_api_key = true)
    (hsec : pyInt t1 = pyInt t2) :
    sessionIdOf t1 = "research_" ++ toString (pyInt t1) ∧
    sessionIdOf t1 = sessionIdOf t2 ∧
    ((start_research stA body t1).2.2).map WorkerSpawn.session_id =
      some (sessionIdOf t1) ∧
    ((start_research stB body t2).2.2).map WorkerSpawn.session_id =
      some (sessionIdOf t1) ∧
    (start_research stB body t2).1.research_logs.lookup (sessionIdOf t1) =
      some [] := by
  have hid : sessionIdOf t1 = sessionIdOf t2 := by
    rw [sessionIdOf, sessionIdOf, hsec]
  refine ⟨rfl, hid, ?_, ?_, ?_⟩
  · simp [start_research, hg, hk]
  · simp [start_research, hg, hk, hid]
  · rw [hid]
    simp [start_research, hg, hk, setItem, List.lookup]

/-- The clock reading 5.1 seconds. -/
def tA : ℚ := { num := 51, den := 10, den_nz := by decide, reduced := by decide }

/-- The clock reading 5.9 seconds. -/
def tB : ℚ := { num := 59, den := 10, den_nz := by decide, reduced := by decide }

/-- Witness for `duplicate_session_id_collision`: two start requests at
5.1s and 5.9s — distinct instants within the same wall-clock second —
against a registry whose shared session already holds a log entry; the
second start resets that log and spawns a worker with the same id. -/
theorem duplicate_session_id_collision_w :
    sessionIdOf tA = "research_" ++ toString (pyInt tA) ∧
    sessionIdOf tA = sessionIdOf tB ∧
    ((start_research ⟨[], [], []⟩ ⟨some "goal", some "sk-key", none⟩
      tA).2.2).map WorkerSpawn.session_id = some (sessionIdOf tA) ∧
    ((start_research
      ⟨[("research_5", "running")], [],
       [("research_5", [⟨"ts", "Search Tool", "Searching", "Query: old"⟩])]⟩
      ⟨some "goal", some "sk-key", none⟩ tB).2.2).map
        WorkerSpawn.session_id = some (sessionIdOf tA) ∧
    (start_research
      ⟨[("research_5", "running")], [],
       [("research_5", [⟨"ts", "Search Tool", "Searching", "Query: old"⟩])]⟩
      ⟨some "goal", some "sk-key", none⟩ tB).1.research_logs.lookup
        (sessionIdOf tA) = some [] :=
  duplicate_session_id_collision tA tB _ _ _ (by decide) (by decide)
    (by decide)

end AICoScientist
